import Mathlib

set_option maxRecDepth 16384

/-!
Verification development for the `prompt-stack/registry` catalog of MCP tool
servers.  The development shallowly embeds the three dispatcher files the
claims are about:

  * `zoho-mail-python/mcp_server.py` (`handle_request` and the stdin loop
    `main`), together with `modules/mail.py` (`ZohoMail._request`);
  * `google-workspace-python/mcp_server.py` (`call_tool`, the account cache
    getters and `switch_account`);
  * `notion-workspace-python/mcp_server.py` (`save_databases`,
    `resolve_database_id` and the alias-mutating tool branches).

Python values appearing in `arguments` dictionaries are modelled by the
scalar JSON values `Value` (compound list/object arguments flow through the
dispatchers opaquely and are never inspected by the code under study, so the
scalar fragment suffices for every claim).  A raised Python exception is
modelled as a `PyErr` carrying the rendering `str(e)`; fallible code returns
`Except PyErr`.  Vendor SDK calls and the filesystem are abstracted as
environment records of functions, so that the dispatchers themselves remain
exactly the code of the repository.
-/

/-- Scalar JSON/Python value, as found in the `arguments` mapping of a tool
call.  `vNone` is Python `None`. -/
inductive Value where
  | vStr (s : String)
  | vInt (n : Int)
  | vBool (b : Bool)
  | vNone
deriving DecidableEq

/-- Rendering of a `Value` by a Python f-string (`str(v)`). -/
def Value.pyStr : Value → String
  | .vStr s => s
  | .vInt n => toString n
  | .vBool true => "True"
  | .vBool false => "False"
  | .vNone => "None"

/-- Python truthiness of a scalar value. -/
def Value.pyTruthy : Value → Bool
  | .vStr s => !s.isEmpty
  | .vInt n => n != 0
  | .vBool b => b
  | .vNone => false

/-- A raised Python exception, identified by its rendering `str(e)`. -/
structure PyErr where
  msg : String
deriving DecidableEq

/-- Rendering of `KeyError(k)`: `str(e)` is the key wrapped in single
quotes. -/
def PyErr.keyError (k : String) : PyErr := ⟨"\x27" ++ k ++ "\x27"⟩

/-- Decidable equality for `Except`, used to evaluate concrete runs. -/
instance {ε α : Type} [DecidableEq ε] [DecidableEq α] : DecidableEq (Except ε α) := fun x y =>
  match x, y with
  | .ok a, .ok b => if h : a = b then .isTrue (by rw [h]) else .isFalse (by simp [h])
  | .ok _, .error _ => .isFalse (by simp)
  | .error _, .ok _ => .isFalse (by simp)
  | .error e, .error f => if h : e = f then .isTrue (by rw [h]) else .isFalse (by simp [h])

/-- A Python dict of tool-call arguments, insertion ordered. -/
abbrev Dict := List (String × Value)

/-- Lookup of a key (`k in d` / `d.get(k)` without default). -/
def Dict.get? (d : Dict) (k : String) : Option Value :=
  match d with
  | [] => none
  | (k1, v) :: t => if k1 = k then some v else Dict.get? t k

/-- Subscript access `d[k]`: raises `KeyError(k)` when the key is absent. -/
def Dict.getItem (d : Dict) (k : String) : Except PyErr Value :=
  match d.get? k with
  | some v => .ok v
  | none => .error (PyErr.keyError k)

/-- The method call `d.get(k)`: yields Python `None` when the key is
absent. -/
def Dict.pyGet (d : Dict) (k : String) : Value :=
  match d.get? k with
  | some v => v
  | none => .vNone

/-- The method call `d.get(k, default)`. -/
def Dict.pyGetD (d : Dict) (k : String) (dflt : Value) : Value :=
  match d.get? k with
  | some v => v
  | none => dflt

/-- Boolean prefix test on character lists (kernel-reducible replacement for
the stuck builtin, used only to state substring facts). -/
def chPre (p s : List Char) : Bool :=
  match p, s with
  | [], _ => true
  | _ :: _, [] => false
  | a :: ps, b :: ss => a = b && chPre ps ss

/-- Boolean substring test on character lists. -/
def chSub (p s : List Char) : Bool :=
  match s with
  | [] => chPre p []
  | _ :: t => chPre p s || chSub p t

/-- The string `s` contains `sub` as a contiguous substring. -/
abbrev MsgContains (s sub : String) : Prop := chSub sub.data s.data = true

/-- Kernel-reducible model of Python `str.lower()` (ASCII case folding, as
used by the alias keys in the sources). -/
def pyLower (s : String) : String := ⟨s.data.map Char.toLower⟩

/-- Kernel-reducible model of Python `str[:n]`. -/
def pyTake (s : String) (n : Nat) : String := ⟨s.data.take n⟩

/-- One content block of a tool response: `{"type": "text", "text": ...}`.
The JSON key `type` is modelled by the field `ctype`. -/
structure TextContent where
  ctype : String
  text : String
deriving DecidableEq

/-- Builds the `{"type": "text", "text": s}` block. -/
def mkText (s : String) : TextContent := ⟨"text", s⟩

/-- Tool-call response envelope: the `content` list plus the optional
`isError` JSON key (`none` models the key being absent, as in every success
response of the zoho server). -/
structure Envelope where
  content : List TextContent
  isError : Option Bool
deriving DecidableEq

/-- Success envelope `{"content": [{"type": "text", "text": s}]}`. -/
def okEnvelope (s : String) : Envelope := ⟨[mkText s], none⟩

/-- Failure envelope `{"content": [...], "isError": True}`. -/
def errEnvelope (s : String) : Envelope := ⟨[mkText s], some true⟩

/-- A registered tool descriptor: name, description, `inputSchema`
properties as (key, declared type) pairs, and the `required` key list. -/
structure ToolDescriptor where
  name : String
  description : String
  properties : List (String × String)
  required : List String
deriving DecidableEq

namespace Zoho

/-- Result dict of `ZohoMail.send_email` as consumed by the dispatcher
(`result.get("message_id")`, already rendered to text). -/
structure SendRes where
  messageId : String
deriving DecidableEq

/-- Result dict of `ZohoMail.create_draft` as consumed by the dispatcher. -/
structure DraftRes where
  draftId : String
deriving DecidableEq

/-- One email record as returned by `ZohoMail.search` / `list_emails`
(the dict built in `modules/mail.py`; the JSON key `from` is modelled by the
field `sender`). -/
structure Msg where
  messageId : String
  subject : String
  sender : String
  date : String
  summary : String
  isRead : Bool
deriving DecidableEq

/-- Full message as returned by `ZohoMail.get_email`. -/
structure FullMsg where
  subject : String
  sender : String
  toAddr : String
  cc : String
  date : String
  body : String
deriving DecidableEq

/-- One folder record as returned by `ZohoMail.list_folders`. -/
structure Folder where
  folderId : String
  name : String
  unreadCount : Nat
  totalCount : Nat
deriving DecidableEq

/-- Record of one invocation of a `ZohoMail` handler method, with the
argument values the dispatcher passed. -/
inductive MailCall where
  | send (toA subject body cc bcc : Value)
  | draft (toA subject body cc : Value)
  | search (query limit : Value)
  | listEmails (folderId limit status : Value)
  | getEmail (messageId : Value)
  | listFolders
deriving DecidableEq

/-- Environment of the zoho dispatcher: the effect of constructing
`ZohoAuth` (which reads the token file and may raise; on success it carries
the value of `is_authenticated()`), and the effect of each `ZohoMail`
method the dispatcher may invoke.  Each method may raise. -/
structure Env where
  authInit : Except PyErr Bool
  sendEmail : Value → Value → Value → Value → Value → Except PyErr SendRes
  createDraft : Value → Value → Value → Value → Except PyErr DraftRes
  search : Value → Value → Except PyErr (List Msg)
  listEmails : Value → Value → Value → Except PyErr (List Msg)
  getEmail : Value → Except PyErr FullMsg
  listFolders : Except PyErr (List Folder)

/-- The `tools/list` descriptors of `zoho-mail-python/mcp_server.py`. -/
def tool_descriptors : List ToolDescriptor :=
  [ ⟨"zoho_send_email", "Send an email via Zoho Mail",
      [("to", "string"), ("subject", "string"), ("body", "string"),
       ("cc", "string"), ("bcc", "string")],
      ["to", "subject", "body"]⟩,
    ⟨"zoho_create_draft", "Create an email draft in Zoho Mail",
      [("to", "string"), ("subject", "string"), ("body", "string"),
       ("cc", "string")],
      ["to", "subject", "body"]⟩,
    ⟨"zoho_search_email", "Search emails in Zoho Mail",
      [("query", "string"), ("limit", "integer")],
      ["query"]⟩,
    ⟨"zoho_list_emails", "List emails in inbox or folder",
      [("folder_id", "string"), ("limit", "integer"), ("status", "string")],
      []⟩,
    ⟨"zoho_get_email", "Get full email content by message ID",
      [("message_id", "string")],
      ["message_id"]⟩,
    ⟨"zoho_list_folders", "List all mail folders", [], []⟩ ]

/-- Registered tool names of the zoho dispatcher. -/
def tool_names : List String :=
  ["zoho_send_email", "zoho_create_draft", "zoho_search_email",
   "zoho_list_emails", "zoho_get_email", "zoho_list_folders"]

/-- The not-authenticated failure response of `handle_request`. -/
def notAuthEnvelope : Envelope :=
  errEnvelope ("Error: Not authenticated. Please run authentication first:\n\npython -c \"from modules.auth import ZohoAuth; auth = ZohoAuth(); auth.authenticate_interactive()\"")

/-- Rendering of one search result (`tools/call` branch
`zoho_search_email`, the loop body of lines 182-187). -/
def searchLine (m : Msg) : String :=
  "- [" ++ m.messageId ++ "] " ++ m.subject ++ "\n" ++
  "  From: " ++ m.sender ++ " | Date: " ++ m.date ++ "\n" ++
  (if m.summary.isEmpty then "" else "  " ++ pyTake m.summary 100 ++ "...\n") ++
  "\n"

/-- Output of the `zoho_search_email` branch. -/
def searchOutput (rs : List Msg) : String :=
  "Found " ++ toString rs.length ++ " emails:\n\n" ++
  String.join (rs.map searchLine)

/-- Rendering of one listed email (`zoho_list_emails`, lines 199-202). -/
def listLine (m : Msg) : String :=
  (if m.isRead then "üìñ" else "üì©") ++
  " [" ++ m.messageId ++ "] " ++ m.subject ++ "\n" ++
  "   From: " ++ m.sender ++ " | " ++ m.date ++ "\n"

/-- Output of the `zoho_list_emails` branch. -/
def listOutput (rs : List Msg) : String :=
  "Found " ++ toString rs.length ++ " emails:\n\n" ++
  String.join (rs.map listLine)

/-- Output of the `zoho_get_email` branch (lines 209-215). -/
def getEmailOutput (r : FullMsg) : String :=
  "Subject: " ++ r.subject ++ "\n" ++
  "From: " ++ r.sender ++ "\n" ++
  "To: " ++ r.toAddr ++ "\n" ++
  (if r.cc.isEmpty then "" else "CC: " ++ r.cc ++ "\n") ++
  "Date: " ++ r.date ++ "\n" ++
  "\n--- Body ---\n" ++ r.body

/-- Rendering of one folder (`zoho_list_folders`, lines 223-225). -/
def folderLine (f : Folder) : String :=
  "üìÅ " ++ f.name ++ " (" ++ toString f.unreadCount ++ " unread / " ++
  toString f.totalCount ++ " total)\n" ++
  "   ID: " ++ f.folderId ++ "\n"

/-- Output of the `zoho_list_folders` branch. -/
def folderOutput (fs : List Folder) : String :=
  "Mail Folders:\n\n" ++ String.join (fs.map folderLine)

/-- Body of the `tools/call` branch of `handle_request` (the region guarded
by `try`, lines 123-234): the computation up to, but not including, the
`except Exception` conversion.  Returns the response (or the raised
exception) together with the list of `ZohoMail` handler invocations that
were performed. -/
def tools_call_body (env : Env) (toolName : String) (args : Dict) :
    Except PyErr Envelope × List MailCall :=
  match env.authInit with
  | .error e => (.error e, [])
  | .ok isAuth =>
    if !isAuth then (.ok notAuthEnvelope, [])
    else if toolName = "zoho_send_email" then
      match args.getItem "to" with
      | .error e => (.error e, [])
      | .ok toA =>
        match args.getItem "subject" with
        | .error e => (.error e, [])
        | .ok subject =>
          match args.getItem "body" with
          | .error e => (.error e, [])
          | .ok body =>
            match env.sendEmail toA subject body (args.pyGet "cc") (args.pyGet "bcc") with
            | .error e =>
              (.error e, [MailCall.send toA subject body (args.pyGet "cc") (args.pyGet "bcc")])
            | .ok r =>
              (.ok (okEnvelope ("Email sent successfully!\nMessage ID: " ++ r.messageId)),
               [MailCall.send toA subject body (args.pyGet "cc") (args.pyGet "bcc")])
    else if toolName = "zoho_create_draft" then
      match args.getItem "to" with
      | .error e => (.error e, [])
      | .ok toA =>
        match args.getItem "subject" with
        | .error e => (.error e, [])
        | .ok subject =>
          match args.getItem "body" with
          | .error e => (.error e, [])
          | .ok body =>
            match env.createDraft toA subject body (args.pyGet "cc") with
            | .error e =>
              (.error e, [MailCall.draft toA subject body (args.pyGet "cc")])
            | .ok r =>
              (.ok (okEnvelope ("Draft created successfully!\nDraft ID: " ++ r.draftId)),
               [MailCall.draft toA subject body (args.pyGet "cc")])
    else if toolName = "zoho_search_email" then
      match args.getItem "query" with
      | .error e => (.error e, [])
      | .ok query =>
        match env.search query (args.pyGetD "limit" (.vInt 25)) with
        | .error e => (.error e, [MailCall.search query (args.pyGetD "limit" (.vInt 25))])
        | .ok rs =>
          (.ok (okEnvelope (searchOutput rs)),
           [MailCall.search query (args.pyGetD "limit" (.vInt 25))])
    else if toolName = "zoho_list_emails" then
      match env.listEmails (args.pyGet "folder_id") (args.pyGetD "limit" (.vInt 25))
          (args.pyGet "status") with
      | .error e =>
        (.error e, [MailCall.listEmails (args.pyGet "folder_id")
          (args.pyGetD "limit" (.vInt 25)) (args.pyGet "status")])
      | .ok rs =>
        (.ok (okEnvelope (listOutput rs)),
         [MailCall.listEmails (args.pyGet "folder_id")
           (args.pyGetD "limit" (.vInt 25)) (args.pyGet "status")])
    else if toolName = "zoho_get_email" then
      match args.getItem "message_id" with
      | .error e => (.error e, [])
      | .ok mid =>
        match env.getEmail mid with
        | .error e => (.error e, [MailCall.getEmail mid])
        | .ok r => (.ok (okEnvelope (getEmailOutput r)), [MailCall.getEmail mid])
    else if toolName = "zoho_list_folders" then
      match env.listFolders with
      | .error e => (.error e, [MailCall.listFolders])
      | .ok fs => (.ok (okEnvelope (folderOutput fs)), [MailCall.listFolders])
    else
      (.ok (errEnvelope ("Unknown tool: " ++ toolName)), [])

/-- The `tools/call` branch of `handle_request` including its
`except Exception` clause (lines 236-240): every raised exception is
converted to the failure envelope `Error: str(e)`. -/
def tools_call (env : Env) (toolName : String) (args : Dict) :
    Envelope × List MailCall :=
  match tools_call_body env toolName args with
  | (.ok r, t) => (r, t)
  | (.error e, t) => (errEnvelope ("Error: " ++ e.msg), t)

end Zoho

namespace Zoho

/-- Result payload of `handle_request` for the three known methods. -/
inductive RpcResult where
  | initRes
  | toolsListRes (ds : List ToolDescriptor)
  | callRes (r : Envelope)
deriving DecidableEq

/-- Return value of `handle_request`: a result dict, or a dict carrying an
`error` key (the unknown-method case, line 242). -/
inductive HandleOut where
  | result (r : RpcResult)
  | rpcError (code : Int) (msg : String)
deriving DecidableEq

/-- The `params` of a request as read by `handle_request`
(`params.get("name")` and `params.get("arguments", {})`). -/
structure CallParams where
  name : String
  arguments : Dict
deriving DecidableEq

/-- The dispatcher `handle_request` (lines 24-242): method dispatch over
`initialize`, `tools/list`, `tools/call`, with the unknown-method error
dict.  Alongside the response it exposes the `ZohoMail` invocations made. -/
def handle_request (env : Env) (method : String) (params : CallParams) :
    HandleOut × List MailCall :=
  if method = "initialize" then (.result .initRes, [])
  else if method = "tools/list" then (.result (.toolsListRes tool_descriptors), [])
  else if method = "tools/call" then
    match tools_call env params.name params.arguments with
    | (r, t) => (.result (.callRes r), t)
  else (.rpcError (-32601) ("Unknown method: " ++ method), [])

/-- One line read from stdin by `main`, after `json.loads`:
`malformed` is a line that fails to parse (raises `JSONDecodeError`),
`notObject` is a parsed value that is not an object (so `request.get`
raises, caught by the outer `except Exception` with rendering `emsg`),
`request` is a parsed request object. -/
inductive InLine where
  | malformed (raw : String)
  | notObject (emsg : String)
  | request (rid : Option Int) (method : String) (params : CallParams)
deriving DecidableEq

/-- Payload of one JSON-RPC output line of `main`. -/
inductive OutPayload where
  | result (r : RpcResult)
  | rpcError (code : Int) (msg : String)
deriving DecidableEq

/-- One JSON-RPC response line written by `main`. -/
structure OutMsg where
  rid : Option Int
  payload : OutPayload
deriving DecidableEq

/-- Responses written for a single input line, mirroring the body of the
`while` loop of `main` (lines 248-282): malformed JSON is skipped
(`continue`), a non-object request yields the id-less `-32603` error
response, and a request object is answered by `handle_request`, wrapped as
`result` or `error` according to the `"error" in response` test. -/
def serve_line (env : Env) (l : InLine) : List OutMsg :=
  match l with
  | .malformed _ => []
  | .notObject emsg => [⟨none, .rpcError (-32603) emsg⟩]
  | .request rid m p =>
    match handle_request env m p with
    | (.result r, _) => [⟨rid, .result r⟩]
    | (.rpcError c msg, _) => [⟨rid, .rpcError c msg⟩]

/-- The `main` loop (lines 245-282): reads lines until end of input,
serving each line in turn.  The loop exits only when the line list is
exhausted (EOF makes `readline` return the empty string and `break`
runs). -/
def main_loop (env : Env) : List InLine → List OutMsg
  | [] => []
  | .malformed raw :: rest => serve_line env (.malformed raw) ++ main_loop env rest
  | .notObject emsg :: rest => serve_line env (.notObject emsg) ++ main_loop env rest
  | .request rid m p :: rest => serve_line env (.request rid m p) ++ main_loop env rest

/-- HTTP response as seen by `ZohoMail._request`; `body` stands for the
parsed `response.json()`. -/
structure HttpResp where
  status : Nat
  body : String
deriving DecidableEq

/-- Environment of one `ZohoMail._request` call: the outcome of the first
`requests.request` (which itself raises on transport errors), the outcome
of `auth.refresh_token()`, and the outcome of the retried
`requests.request`. -/
structure ReqEnv where
  resp1 : Except PyErr HttpResp
  refresh : Except PyErr Unit
  resp2 : Except PyErr HttpResp

/-- Outcome of `_request` instrumented with the number of API requests
issued and of refresh attempts made. -/
structure ReqOutcome where
  result : Except PyErr String
  apiRequests : Nat
  refreshAttempts : Nat
deriving DecidableEq

/-- Exception raised by the `except requests.exceptions.HTTPError` clause of
`_request` (line 49); the f-string rendering of the `HTTPError` and of the
error payload is abstracted to the status and body. -/
def apiError (r : HttpResp) : PyErr :=
  ⟨"API Error: " ++ toString r.status ++ " - " ++ r.body⟩

/-- The authenticated request helper `ZohoMail._request`
(`modules/mail.py` lines 27-49): on a 401 first response, one
`refresh_token()` call followed by one retried request; then
`raise_for_status` (raises for any 4xx/5xx status) and the JSON body. -/
def mail_request (env : ReqEnv) : ReqOutcome :=
  match env.resp1 with
  | .error e => ⟨.error e, 1, 0⟩
  | .ok r1 =>
    if r1.status = 401 then
      match env.refresh with
      | .error e => ⟨.error e, 1, 1⟩
      | .ok _ =>
        match env.resp2 with
        | .error e => ⟨.error e, 2, 1⟩
        | .ok r2 =>
          if 400 ≤ r2.status ∧ r2.status < 600 then ⟨.error (apiError r2), 2, 1⟩
          else ⟨.ok r2.body, 2, 1⟩
    else if 400 ≤ r1.status ∧ r1.status < 600 then ⟨.error (apiError r1), 1, 0⟩
    else ⟨.ok r1.body, 1, 0⟩

end Zoho

/-- Python dict item assignment `d[k] = v`: replaces in place when the key
exists, appends otherwise (insertion order preserved). -/
def Dict.setItem (d : Dict) (k : String) (v : Value) : Dict :=
  match d with
  | [] => [(k, v)]
  | (k1, v1) :: t => if k1 = k then (k1, v) :: t else (k1, v1) :: Dict.setItem t k v

/-- Python `del d[k]` on a dict with unique keys. -/
def Dict.delItem (d : Dict) (k : String) : Dict :=
  match d with
  | [] => []
  | (k1, v1) :: t => if k1 = k then t else (k1, v1) :: Dict.delItem t k

/-- Python `s.replace("-", "")`. -/
def dropDashes (s : String) : String := ⟨s.data.filter (fun c => c ≠ Char.ofNat 45)⟩

namespace Notion

/-- State of the notion alias store: the in-memory `_databases` dict and the
content of `databases.json` on disk (`none` when the file does not
exist).  Both map alias names to database-id values. -/
structure St where
  mem : Dict
  file : Option Dict
deriving DecidableEq

/-- The function `save_databases` (lines 61-65): writes the whole dict to
disk, but only when the dict is non-empty (`if dbs:`). -/
def save_databases (st : St) : St :=
  if st.mem.isEmpty then st else { st with file := some st.mem }

/-- The function `resolve_database_id` (lines 68-79): alias lookup on the
lowercased input first; otherwise the input itself is returned when, with
dashes removed, it lowercases to exactly 32 hex characters; otherwise no
result. -/
def resolve_database_id (dbs : Dict) (nameOrId : String) : Option Value :=
  match dbs.get? (pyLower nameOrId) with
  | some v => some v
  | none =>
    let clean := dropDashes nameOrId
    if clean.data.length = 32 ∧
        (pyLower clean).data.all (fun c => "0123456789abcdef".data.contains c) then
      some (.vStr nameOrId)
    else none

/-- The method call `v.lower()`: raises `AttributeError` on a non-string
(rendering abbreviated). -/
def lowerValue (v : Value) : Except PyErr String :=
  match v with
  | .vStr s => .ok (pyLower s)
  | _ => .error ⟨"object has no attribute \x27lower\x27"⟩

/-- The `notion_db_add` branch of `call_tool` (lines 334-339): stores the
lowercased alias, saves, and reports the mapping. -/
def notion_db_add (args : Dict) (st : St) : Except PyErr (String × St) :=
  match args.getItem "name" with
  | .error e => .error e
  | .ok nv =>
    match lowerValue nv with
    | .error e => .error e
    | .ok aliasName =>
      match args.getItem "database_id" with
      | .error e => .error e
      | .ok dbid =>
        let st1 : St := { st with mem := st.mem.setItem aliasName dbid }
        let st2 := save_databases st1
        .ok ("Added alias \x27" ++ aliasName ++ "\x27 -> " ++ dbid.pyStr, st2)

/-- The `notion_db_remove` branch of `call_tool` (lines 341-349): deletes
the lowercased alias when present and saves; otherwise reports
not-found without saving. -/
def notion_db_remove (args : Dict) (st : St) : Except PyErr (String × St) :=
  match args.getItem "name" with
  | .error e => .error e
  | .ok nv =>
    match lowerValue nv with
    | .error e => .error e
    | .ok aliasName =>
      if (st.mem.get? aliasName).isSome then
        let st1 : St := { st with mem := st.mem.delItem aliasName }
        let st2 := save_databases st1
        .ok ("Removed alias \x27" ++ aliasName ++ "\x27", st2)
      else
        .ok ("Alias \x27" ++ aliasName ++ "\x27 not found", st)

end Notion

namespace GW

/-- A `GoogleAuth` object: `account` is the account whose credential and
token paths it was constructed with (`none` models the legacy-path
fallback); `gen` is a construction counter used to witness freshness. -/
structure Auth where
  account : Option String
  gen : Nat
deriving DecidableEq

/-- One cached vendor client handle (`GmailAPI`, `SheetsAPI`, `DocsAPI`,
`DriveAPI`, `CalendarAPI`), remembering the `GoogleAuth` it was built
from and its construction counter. -/
structure Handle where
  auth : Auth
  gen : Nat
deriving DecidableEq

/-- The module-level mutable state of `mcp_server.py`: `_current_account`,
`_auth` and the five service caches, plus the construction counter
instrumenting handle creation. -/
structure St where
  currentAccount : Option String
  auth : Option Auth
  gmail : Option Handle
  sheets : Option Handle
  docs : Option Handle
  drive : Option Handle
  calendar : Option Handle
  counter : Nat
deriving DecidableEq

/-- The five vendor services a handle can be built for. -/
inductive ServiceKind where
  | gmail
  | sheets
  | docs
  | drive
  | calendar
deriving DecidableEq

/-- A sent Gmail message as consumed by the dispatcher (`result["id"]`). -/
structure GmailMsg where
  id : String
deriving DecidableEq

/-- A Gmail profile (`profile.get("emailAddress", "unknown")`). -/
structure Profile where
  emailAddress : Option String
deriving DecidableEq

/-- One calendar event as consumed by the `calendar_list` branch. -/
structure Event where
  summary : String
  start : String
  location : String
deriving DecidableEq

/-- A created calendar event (`event["summary"]`,
`event.get("htmlLink", "")`). -/
structure EventCreated where
  summary : String
  htmlLink : Option String
deriving DecidableEq

/-- A quick-add calendar event (`event.get("summary", "Untitled")`). -/
structure QuickEvent where
  summary : Option String
  htmlLink : Option String
deriving DecidableEq

/-- Environment of the google dispatcher: the accounts directory listing
and predicates (for `get_available_accounts` and `switch_account`), the
effect of building each vendor service client (which performs
authentication and may raise), and the effect of every vendor API method
the dispatcher invokes.  String-rendering of structured vendor results
(`json.dumps`, draft-id interpolation) is folded into the environment
functions that return `String`. -/
structure Env where
  accountDirs : List String
  isDir : String → Bool
  hasToken : String → Bool
  dirExists : String → Bool
  buildService : ServiceKind → Auth → Except PyErr Unit
  getProfile : Handle → Except PyErr Profile
  sendEmail : Handle → Value → Value → Value → Except PyErr (Option GmailMsg)
  createDraft : Handle → Value → Value → Value → Except PyErr String
  searchEmails : Handle → Value → Value → Except PyErr String
  getValues : Handle → Value → Value → Except PyErr String
  updateValues : Handle → Value → Value → Value → Except PyErr Nat
  appendValues : Handle → Value → Value → Value → Except PyErr Nat
  createDocument : Handle → Value → Except PyErr String
  insertText : Handle → String → Value → Except PyErr Unit
  readContent : Handle → Value → Except PyErr String
  insertImage : Handle → Value → Value → Value → Except PyErr Bool
  listFiles : Handle → Value → Value → Value → Except PyErr String
  uploadFile : Handle → Value → Value → Value → Except PyErr String
  makePublic : Handle → Value → Except PyErr (Option String)
  deleteFile : Handle → Value → Except PyErr Bool
  sendWithAttachments : Handle → Value → Value → Value → Value → Except PyErr (Option GmailMsg)
  listEvents : Handle → Value → Value → Except PyErr (List Event)
  fmtEventDate : String → Except PyErr String
  createEvent : Handle → Value → Value → Value → Value → Value → Except PyErr (Option EventCreated)
  quickAdd : Handle → Value → Except PyErr (Option QuickEvent)
  deleteEvent : Handle → Value → Except PyErr Bool

/-- The function `get_available_accounts` (lines 34-41): subdirectories of
the accounts directory that contain a `token.json`. -/
def get_available_accounts (env : Env) : List String :=
  env.accountDirs.filter (fun n => env.isDir n && env.hasToken n)

/-- The function `get_current_account` (lines 63-69): lazily defaults the
active account to the first available one. -/
def get_current_account (env : Env) (st : St) : Option String × St :=
  match st.currentAccount with
  | some a => (some a, st)
  | none =>
    let cur := (get_available_accounts env).head?
    (cur, { st with currentAccount := cur })

/-- The function `get_auth` (lines 72-92): returns the cached `GoogleAuth`
or constructs one against the current account. -/
def get_auth (env : Env) (st : St) : Auth × St :=
  match st.auth with
  | some a => (a, st)
  | none =>
    match get_current_account env st with
    | (acc, st1) =>
      let a : Auth := ⟨acc, st1.counter⟩
      (a, { st1 with auth := some a, counter := st1.counter + 1 })

/-- The function `get_gmail` (lines 95-100): returns the cached handle or
constructs `GmailAPI(get_auth())` (whose constructor authenticates and may
raise). -/
def get_gmail (env : Env) (st : St) : Except PyErr Handle × St :=
  match st.gmail with
  | some h => (.ok h, st)
  | none =>
    match get_auth env st with
    | (a, st1) =>
      match env.buildService .gmail a with
      | .error e => (.error e, st1)
      | .ok _ =>
        let h : Handle := ⟨a, st1.counter⟩
        (.ok h, { st1 with gmail := some h, counter := st1.counter + 1 })

/-- The function `get_sheets` (lines 103-108). -/
def get_sheets (env : Env) (st : St) : Except PyErr Handle × St :=
  match st.sheets with
  | some h => (.ok h, st)
  | none =>
    match get_auth env st with
    | (a, st1) =>
      match env.buildService .sheets a with
      | .error e => (.error e, st1)
      | .ok _ =>
        let h : Handle := ⟨a, st1.counter⟩
        (.ok h, { st1 with sheets := some h, counter := st1.counter + 1 })

/-- The function `get_docs` (lines 111-116). -/
def get_docs (env : Env) (st : St) : Except PyErr Handle × St :=
  match st.docs with
  | some h => (.ok h, st)
  | none =>
    match get_auth env st with
    | (a, st1) =>
      match env.buildService .docs a with
      | .error e => (.error e, st1)
      | .ok _ =>
        let h : Handle := ⟨a, st1.counter⟩
        (.ok h, { st1 with docs := some h, counter := st1.counter + 1 })

/-- The function `get_drive` (lines 119-124). -/
def get_drive (env : Env) (st : St) : Except PyErr Handle × St :=
  match st.drive with
  | some h => (.ok h, st)
  | none =>
    match get_auth env st with
    | (a, st1) =>
      match env.buildService .drive a with
      | .error e => (.error e, st1)
      | .ok _ =>
        let h : Handle := ⟨a, st1.counter⟩
        (.ok h, { st1 with drive := some h, counter := st1.counter + 1 })

/-- The function `get_calendar` (lines 129-134). -/
def get_calendar (env : Env) (st : St) : Except PyErr Handle × St :=
  match st.calendar with
  | some h => (.ok h, st)
  | none =>
    match get_auth env st with
    | (a, st1) =>
      match env.buildService .calendar a with
      | .error e => (.error e, st1)
      | .ok _ =>
        let h : Handle := ⟨a, st1.counter⟩
        (.ok h, { st1 with calendar := some h, counter := st1.counter + 1 })

/-- The function `switch_account` (lines 44-60): when the account directory
and its `token.json` exist, resets every cached service handle to `None`
and repoints the active account; otherwise reports failure leaving the
state untouched. -/
def switch_account (env : Env) (st : St) (accountName : String) : Bool × St :=
  if env.dirExists accountName && env.hasToken accountName then
    (true, { st with auth := none, gmail := none, sheets := none, docs := none,
                     drive := none, calendar := none,
                     currentAccount := some accountName })
  else (false, st)

/-- Path join `ACCOUNTS_DIR / account_name`: raises `TypeError` when the
argument value is not a string. -/
def asPathName : Value → Except PyErr String
  | .vStr s => .ok s
  | _ => .error ⟨"unsupported operand type(s) for /"⟩

/-- Sequencing of a fallible step through the dispatcher state (a raised
exception aborts the branch, carrying the state as mutated so far). -/
def stepE {α : Type} (r : Except PyErr α) (st : St)
    (f : α → St → Except PyErr (List TextContent) × St) :
    Except PyErr (List TextContent) × St :=
  match r with
  | .error e => (.error e, st)
  | .ok a => f a st

/-- Sequencing of a state-mutating fallible step (the cache getters). -/
def bindE {α : Type} (p : Except PyErr α × St)
    (f : α → St → Except PyErr (List TextContent) × St) :
    Except PyErr (List TextContent) × St :=
  match p with
  | (.error e, st) => (.error e, st)
  | (.ok a, st) => f a st

/-- Rendering of the `calendar_list` event lines (lines 580-591); the
`datetime.fromisoformat`/`strftime` formatting of timestamps containing a
`T` is delegated to `env.fmtEventDate` and may raise. -/
def renderEvents (env : Env) : List Event → Except PyErr (List String)
  | [] => .ok []
  | ev :: rest =>
    match (if ev.start.data.contains (Char.ofNat 84) then env.fmtEventDate ev.start
           else .ok ev.start) with
    | .error e => .error e
    | .ok dateStr =>
      match renderEvents env rest with
      | .error e => .error e
      | .ok tail =>
        .ok ((["\n• " ++ ev.summary, "  " ++ dateStr] ++
              (if ev.location.isEmpty then [] else ["  📍 " ++ ev.location])) ++ tail)

/-- The `account_list` response text (lines 409-418). -/
def accountListText (env : Env) (current : Option String) : String :=
  let accounts := get_available_accounts env
  let lines := "Available Google accounts:" ::
    accounts.map (fun acc => "  • " ++ acc ++ (if current = some acc then " (active)" else ""))
  let lines2 := if accounts.isEmpty
    then lines ++ ["  No accounts configured. Run auth flow to add one."]
    else lines
  String.intercalate "\n" lines2

/-- Body of `call_tool` (`mcp_server.py` lines 406-626): the region guarded
by `try`, before the `except Exception` conversion. -/
def call_tool_body (env : Env) (name : String) (args : Dict) (st : St) :
    Except PyErr (List TextContent) × St :=
  if name = "account_list" then
    match get_current_account env st with
    | (current, st1) => (.ok [mkText (accountListText env current)], st1)
  else if name = "account_switch" then
    stepE (args.getItem "account") st fun v st =>
    stepE (asPathName v) st fun accountName st =>
      match switch_account env st accountName with
      | (true, st1) => (.ok [mkText ("Switched to account: " ++ accountName)], st1)
      | (false, st1) =>
        let available := get_available_accounts env
        (.ok [mkText ("Account \x27" ++ accountName ++ "\x27 not found. Available: " ++
          String.intercalate ", " available)], st1)
  else if name = "account_current" then
    match get_current_account env st with
    | (some current, st1) =>
      (match get_gmail env st1 with
       | (.error _, st2) => (.ok [mkText ("Current account: " ++ current)], st2)
       | (.ok gm, st2) =>
         match env.getProfile gm with
         | .error _ => (.ok [mkText ("Current account: " ++ current)], st2)
         | .ok p =>
           (.ok [mkText ("Current account: " ++ current ++ "\nEmail: " ++
             p.emailAddress.getD "unknown")], st2))
    | (none, st1) => (.ok [mkText "No account configured"], st1)
  else if name = "gmail_send" then
    bindE (get_gmail env st) fun gmail st =>
    stepE (args.getItem "to") st fun toV st =>
    stepE (args.getItem "subject") st fun subject st =>
    stepE (args.getItem "body") st fun body st =>
    stepE (env.sendEmail gmail toV subject body) st fun result st =>
      match result with
      | some m => (.ok [mkText ("Email sent successfully. Message ID: " ++ m.id)], st)
      | none => (.ok [mkText "Failed to send email"], st)
  else if name = "gmail_draft" then
    bindE (get_gmail env st) fun gmail st =>
    stepE (args.getItem "to") st fun toV st =>
    stepE (args.getItem "subject") st fun subject st =>
    stepE (args.getItem "body") st fun body st =>
    stepE (env.createDraft gmail toV subject body) st fun result st =>
      (.ok [mkText ("Draft created successfully. Draft ID: " ++ result)], st)
  else if name = "gmail_search" then
    bindE (get_gmail env st) fun gmail st =>
    stepE (args.getItem "query") st fun query st =>
    stepE (env.searchEmails gmail query (args.pyGetD "max_results" (.vInt 10))) st fun s st =>
      (.ok [mkText s], st)
  else if name = "sheets_read" then
    bindE (get_sheets env st) fun sheets st =>
    stepE (args.getItem "spreadsheet_id") st fun sid st =>
    stepE (args.getItem "range") st fun rng st =>
    stepE (env.getValues sheets sid rng) st fun s st =>
      (.ok [mkText s], st)
  else if name = "sheets_write" then
    bindE (get_sheets env st) fun sheets st =>
    stepE (args.getItem "spreadsheet_id") st fun sid st =>
    stepE (args.getItem "range") st fun rng st =>
    stepE (args.getItem "values") st fun vals st =>
    stepE (env.updateValues sheets sid rng vals) st fun n st =>
      (.ok [mkText ("Updated " ++ toString n ++ " cells")], st)
  else if name = "sheets_append" then
    bindE (get_sheets env st) fun sheets st =>
    stepE (args.getItem "spreadsheet_id") st fun sid st =>
    stepE (args.getItem "range") st fun rng st =>
    stepE (args.getItem "values") st fun vals st =>
    stepE (env.appendValues sheets sid rng vals) st fun n st =>
      (.ok [mkText ("Appended " ++ toString n ++ " rows")], st)
  else if name = "docs_create" then
    bindE (get_docs env st) fun docs st =>
    stepE (args.getItem "title") st fun title st =>
    stepE (env.createDocument docs title) st fun docId st =>
      let done := fun (st : St) =>
        ((.ok [mkText ("Document created. ID: " ++ docId ++
          "\nURL: https://docs.google.com/document/d/" ++ docId)] :
            Except PyErr (List TextContent)), st)
      if (args.pyGet "content").pyTruthy then
        stepE (args.getItem "content") st fun content st =>
        stepE (env.insertText docs docId content) st fun _ st =>
          done st
      else done st
  else if name = "docs_read" then
    bindE (get_docs env st) fun docs st =>
    stepE (args.getItem "document_id") st fun docId st =>
    stepE (env.readContent docs docId) st fun content st =>
      (.ok [mkText content], st)
  else if name = "docs_insert_image" then
    bindE (get_docs env st) fun docs st =>
    stepE (args.getItem "document_id") st fun docId st =>
    stepE (args.getItem "image_url") st fun url st =>
    stepE (env.insertImage docs docId url (args.pyGetD "index" (.vInt 1))) st fun ok st =>
      if ok then (.ok [mkText "Image inserted into document"], st)
      else (.ok [mkText "Failed to insert image"], st)
  else if name = "drive_list" then
    bindE (get_drive env st) fun drive st =>
    stepE (env.listFiles drive (args.pyGet "query") (args.pyGet "folder_id")
      (args.pyGetD "max_results" (.vInt 20))) st fun s st =>
      (.ok [mkText s], st)
  else if name = "drive_upload" then
    bindE (get_drive env st) fun drive st =>
    stepE (args.getItem "file_path") st fun fp st =>
    stepE (env.uploadFile drive fp (args.pyGet "folder_id") (args.pyGet "name")) st fun fileId st =>
      (.ok [mkText ("File uploaded. ID: " ++ fileId ++
        "\nURL: https://drive.google.com/file/d/" ++ fileId)], st)
  else if name = "drive_make_public" then
    bindE (get_drive env st) fun drive st =>
    stepE (args.getItem "file_id") st fun fid st =>
    stepE (env.makePublic drive fid) st fun r st =>
      match r with
      | some url => (.ok [mkText ("File is now public.\nDirect URL: " ++ url)], st)
      | none => (.ok [mkText "Failed to make file public"], st)
  else if name = "drive_delete" then
    bindE (get_drive env st) fun drive st =>
    stepE (args.getItem "file_id") st fun fid st =>
    stepE (env.deleteFile drive fid) st fun ok st =>
      if ok then (.ok [mkText "File deleted successfully"], st)
      else (.ok [mkText "Failed to delete file"], st)
  else if name = "gmail_send_with_attachment" then
    bindE (get_gmail env st) fun gmail st =>
    stepE (args.getItem "to") st fun toV st =>
    stepE (args.getItem "subject") st fun subject st =>
    stepE (args.getItem "body") st fun body st =>
    stepE (args.getItem "attachments") st fun atts st =>
    stepE (env.sendWithAttachments gmail toV subject body atts) st fun result st =>
      match result with
      | some m => (.ok [mkText ("Email sent with attachments. Message ID: " ++ m.id)], st)
      | none => (.ok [mkText "Failed to send email with attachments"], st)
  else if name = "calendar_list" then
    bindE (get_calendar env st) fun calendar st =>
    stepE (env.listEvents calendar (args.pyGetD "days" (.vInt 7))
      (args.pyGetD "max_results" (.vInt 20))) st fun events st =>
      if events.isEmpty then (.ok [mkText "No upcoming events"], st)
      else
        stepE (renderEvents env events) st fun lines st =>
          (.ok [mkText (String.intercalate "\n" ("Upcoming events:" :: lines))], st)
  else if name = "calendar_create" then
    bindE (get_calendar env st) fun calendar st =>
    stepE (args.getItem "summary") st fun summary st =>
    stepE (args.getItem "start") st fun start st =>
    stepE (args.getItem "end") st fun endV st =>
    stepE (env.createEvent calendar summary start endV
      (args.pyGetD "description" (.vStr "")) (args.pyGetD "location" (.vStr ""))) st fun ev st =>
      match ev with
      | some e1 => (.ok [mkText ("Event created: " ++ e1.summary ++ "\nLink: " ++
          e1.htmlLink.getD "")], st)
      | none => (.ok [mkText "Failed to create event"], st)
  else if name = "calendar_quick_add" then
    bindE (get_calendar env st) fun calendar st =>
    stepE (args.getItem "text") st fun txt st =>
    stepE (env.quickAdd calendar txt) st fun ev st =>
      match ev with
      | some e1 => (.ok [mkText ("Event created: " ++ e1.summary.getD "Untitled" ++
          "\nLink: " ++ e1.htmlLink.getD "")], st)
      | none => (.ok [mkText "Failed to create event"], st)
  else if name = "calendar_delete" then
    bindE (get_calendar env st) fun calendar st =>
    stepE (args.getItem "event_id") st fun eid st =>
    stepE (env.deleteEvent calendar eid) st fun ok st =>
      if ok then (.ok [mkText "Event deleted successfully"], st)
      else (.ok [mkText "Failed to delete event"], st)
  else
    (.ok [mkText ("Unknown tool: " ++ name)], st)

/-- The handler `call_tool` including its `except Exception` clause
(lines 628-629): every raised exception becomes the content
`Error: str(e)`. -/
def call_tool (env : Env) (name : String) (args : Dict) (st : St) :
    List TextContent × St :=
  match call_tool_body env name args st with
  | (.ok cs, st1) => (cs, st1)
  | (.error e, st1) => ([mkText ("Error: " ++ e.msg)], st1)

/-- Registered tool names of the google dispatcher, in dispatch order. -/
def tool_names : List String :=
  ["account_list", "account_switch", "account_current", "gmail_send",
   "gmail_draft", "gmail_search", "sheets_read", "sheets_write",
   "sheets_append", "docs_create", "docs_read", "docs_insert_image",
   "drive_list", "drive_upload", "drive_make_public", "drive_delete",
   "gmail_send_with_attachment", "calendar_list", "calendar_create",
   "calendar_quick_add", "calendar_delete"]

/-- Wire response envelope of the MCP transport: content plus the
`is_error` flag. -/
structure WireResponse where
  content : List TextContent
  isError : Bool
deriving DecidableEq

/-- Modelled from the spec: the stdio transport of the `mcp` package (used
by the google and notion servers but not part of this repository) wraps the
value returned by the registered handler into the section-6 envelope —
`{content: ...}` with the error flag unset on a normal return,
`{content: [text], is_error: true}` when the handler raises. -/
def mcpWrap (r : Except PyErr (List TextContent)) : WireResponse :=
  match r with
  | .ok cs => ⟨cs, false⟩
  | .error e => ⟨[mkText e.msg], true⟩

/-- The wire response produced for one google tool call: `call_tool` always
returns normally (its body is guarded by `try/except`), so the transport
wraps a normal return. -/
def wire_response (env : Env) (name : String) (args : Dict) (st : St) : WireResponse :=
  mcpWrap (.ok (call_tool env name args st).fst)

/-- Construction counters of all handles cached in a state. -/
def cachedGens (st : St) : List Nat :=
  (st.auth.map Auth.gen).toList ++ (st.gmail.map Handle.gen).toList ++
  (st.sheets.map Handle.gen).toList ++ (st.docs.map Handle.gen).toList ++
  (st.drive.map Handle.gen).toList ++ (st.calendar.map Handle.gen).toList

/-- Well-formed instrumentation: every cached handle was constructed before
the current value of the construction counter. -/
abbrev WF (st : St) : Prop := ∀ g ∈ cachedGens st, g < st.counter

end GW

theorem chPre_append (k y : List Char) : chPre k (k ++ y) = true := by
  induction k with
  | nil => rfl
  | cons a t ih => simp [chPre, ih]

theorem chSub_mid (x k y : List Char) : chSub k (x ++ (k ++ y)) = true := by
  induction x with
  | nil =>
    simp only [List.nil_append]
    cases k with
    | nil => cases y <;> simp [chSub, chPre]
    | cons a t => simp [chSub, chPre, chPre_append]
  | cons c cs ih => simp [chSub, ih]

theorem msg_contains_mid (a k b : String) : MsgContains (a ++ (k ++ b)) k := by
  simpa [MsgContains, String.data_append] using chSub_mid a.data k.data b.data

theorem msg_contains_tail (a k : String) : MsgContains (a ++ k) k := by
  have h := chSub_mid a.data k.data []
  simpa [MsgContains, String.data_append] using h

/-- Looks a tool descriptor up by name. -/
def findTool (ds : List ToolDescriptor) (n : String) : Option ToolDescriptor :=
  ds.find? (fun d => d.name == n)

/-- JSON type name of a scalar value, for comparison against a declared
schema type. -/
def jsonTypeName : Value → String
  | .vStr _ => "string"
  | .vInt _ => "integer"
  | .vBool _ => "boolean"
  | .vNone => "null"

/-- A zoho environment whose auth is in place and whose vendor calls all
succeed. -/
def zEnvOkFix : Zoho.Env :=
  { authInit := .ok true,
    sendEmail := fun _ _ _ _ _ => .ok ⟨"MSG123"⟩,
    createDraft := fun _ _ _ _ => .ok ⟨"DR1"⟩,
    search := fun _ _ => .ok [],
    listEmails := fun _ _ _ => .ok [],
    getEmail := fun _ => .ok ⟨"s", "f", "t", "", "d", "b"⟩,
    listFolders := .ok [] }

/-- A zoho environment whose send handler raises a simulated network
error. -/
def zEnvBoomFix : Zoho.Env :=
  { zEnvOkFix with sendEmail := fun _ _ _ _ _ => .error ⟨"boom"⟩ }

/-- A zoho environment that is not authenticated. -/
def zEnvUnauthFix : Zoho.Env :=
  { zEnvOkFix with authInit := .ok false }

/-- Complete arguments for the send-email tools. -/
def zArgsFull : Dict :=
  [("to", .vStr "a@b.c"), ("subject", .vStr "Hi"), ("body", .vStr "Text")]

/-- Arguments for send-email whose `to` value violates the declared
`string` type. -/
def zArgsBadType : Dict :=
  [("to", .vInt 5), ("subject", .vStr "Hi"), ("body", .vStr "Text")]

/-- A google environment with two configured accounts and succeeding
vendor calls. -/
def gEnvFix : GW.Env :=
  { accountDirs := ["personal", "work"],
    isDir := fun _ => true,
    hasToken := fun a => a == "personal" || a == "work",
    dirExists := fun a => a == "personal" || a == "work",
    buildService := fun _ _ => .ok (),
    getProfile := fun _ => .ok ⟨some "me@x.y"⟩,
    sendEmail := fun _ _ _ _ => .ok (some ⟨"GM1"⟩),
    createDraft := fun _ _ _ _ => .ok "D1",
    searchEmails := fun _ _ _ => .ok "[]",
    getValues := fun _ _ _ => .ok "[]",
    updateValues := fun _ _ _ _ => .ok 4,
    appendValues := fun _ _ _ _ => .ok 2,
    createDocument := fun _ _ => .ok "DOC1",
    insertText := fun _ _ _ => .ok (),
    readContent := fun _ _ => .ok "hello",
    insertImage := fun _ _ _ _ => .ok true,
    listFiles := fun _ _ _ _ => .ok "[]",
    uploadFile := fun _ _ _ _ => .ok "F1",
    makePublic := fun _ _ => .ok (some "http://u"),
    deleteFile := fun _ _ => .ok true,
    sendWithAttachments := fun _ _ _ _ _ => .ok (some ⟨"GM2"⟩),
    listEvents := fun _ _ _ => .ok [],
    fmtEventDate := fun s => .ok s,
    createEvent := fun _ _ _ _ _ _ => .ok (some ⟨"Ev", some "L"⟩),
    quickAdd := fun _ _ => .ok (some ⟨some "Q", none⟩),
    deleteEvent := fun _ _ => .ok true }

/-- A google environment whose gmail send raises a simulated network
error. -/
def gEnvBoomFix : GW.Env :=
  { gEnvFix with sendEmail := fun _ _ _ _ => .error ⟨"network unreachable"⟩ }

/-- Fresh google dispatcher state with account `personal` active and no
cached handles. -/
def gSt0 : GW.St := ⟨some "personal", none, none, none, none, none, none, 0⟩

/-- Google dispatcher state with auth and gmail handles already cached for
account `personal`. -/
def gStWarm : GW.St :=
  ⟨some "personal", some ⟨some "personal", 0⟩, some ⟨⟨some "personal", 0⟩, 1⟩,
   none, none, none, none, 2⟩

theorem get?_setItem_self (d : Dict) (k : String) (v : Value) :
    (d.setItem k v).get? k = some v := by
  induction d with
  | nil => simp [Dict.setItem, Dict.get?]
  | cons p t ih =>
    obtain ⟨k1, v1⟩ := p
    by_cases h : k1 = k
    · simp [Dict.setItem, Dict.get?, h]
    · simp [Dict.setItem, Dict.get?, h, ih]

theorem setItem_isEmpty (d : Dict) (k : String) (v : Value) :
    (d.setItem k v).isEmpty = false := by
  cases d with
  | nil => simp [Dict.setItem]
  | cons p t =>
    obtain ⟨k1, v1⟩ := p
    by_cases h : k1 = k <;> simp [Dict.setItem, h]

theorem save_databases_mem (st : Notion.St) :
    (Notion.save_databases st).mem = st.mem := by
  unfold Notion.save_databases
  split <;> rfl

theorem save_databases_file_of_nonempty (st : Notion.St)
    (h : st.mem.isEmpty = false) :
    (Notion.save_databases st).file = some st.mem := by
  unfold Notion.save_databases
  split
  · simp_all
  · rfl

/-- Claim C10 — `resolve_database_id` resolves in the fixed order: an alias
hit on the lowercased input wins (even over a well-formed database ID);
otherwise a dash-stripped 32-hex-character input is returned unchanged;
otherwise there is no result.  Since `notion_db_add` stores the alias
lowercased, an added alias is resolvable afterwards under any casing of its
name. -/
theorem c10_resolve_database_id_order :
    (∀ (dbs : Dict) (s : String) (v : Value), dbs.get? (pyLower s) = some v →
       Notion.resolve_database_id dbs s = some v) ∧
    (∀ (dbs : Dict) (s : String), dbs.get? (pyLower s) = none →
       Notion.resolve_database_id dbs s =
         (if (dropDashes s).data.length = 32 ∧
             ((pyLower (dropDashes s)).data.all fun c => "0123456789abcdef".data.contains c)
          then some (.vStr s) else none)) ∧
    (∀ (args : Dict) (st : Notion.St) (s : String) (dbid : Value) (msg : String)
       (st2 : Notion.St),
       args.getItem "name" = .ok (.vStr s) →
       args.getItem "database_id" = .ok dbid →
       Notion.notion_db_add args st = .ok (msg, st2) →
       ∀ q : String, pyLower q = pyLower s →
         Notion.resolve_database_id st2.mem q = some dbid) := by
  refine ⟨?_, ?_, ?_⟩
  · intro dbs s v h
    simp [Notion.resolve_database_id, h]
  · intro dbs s h
    simp [Notion.resolve_database_id, h]
  · intro args st s dbid msg st2 h1 h2 h3 q hq
    simp [Notion.notion_db_add, h1, h2, Notion.lowerValue] at h3
    have hmem : st2.mem = st.mem.setItem (pyLower s) dbid := by
      rw [← h3.2, save_databases_mem]
    simp [Notion.resolve_database_id, hmem, hq, get?_setItem_self]

/-- State with the single alias `tasks` both in memory and on disk. -/
def nStOne : Notion.St := ⟨[("tasks", .vStr "id1")], some [("tasks", .vStr "id1")]⟩

/-- State after removing the last alias: memory empty, disk stale. -/
def nStAfter : Notion.St := ⟨[], some [("tasks", .vStr "id1")]⟩

/-- Counterexample to claim C8 as stated: removing the last remaining alias
succeeds but leaves the on-disk file still recording the removed alias, not
the (empty) in-memory map — `save_databases` skips the write when the dict
is empty. -/
theorem c8_counterexample :
    Notion.notion_db_remove [("name", .vStr "tasks")] nStOne =
      .ok ("Removed alias \x27tasks\x27", nStAfter) ∧
    nStAfter.file ≠ some nStAfter.mem := by
  constructor
  · decide
  · decide

/-- Claim C8 (amended) — `notion_db_add` always rewrites the file to the
in-memory map; `notion_db_remove` of a present alias rewrites the file to
the in-memory map when aliases remain, but when the removal empties the
map the file is left untouched (still recording the removed alias); a
remove of an absent alias changes nothing. -/
theorem c8_alias_file_rewrite :
    (∀ (args : Dict) (st : Notion.St) (msg : String) (st2 : Notion.St),
       Notion.notion_db_add args st = .ok (msg, st2) → st2.file = some st2.mem) ∧
    (∀ (args : Dict) (st : Notion.St) (s : String) (msg : String) (st2 : Notion.St),
       args.getItem "name" = .ok (.vStr s) →
       Notion.notion_db_remove args st = .ok (msg, st2) →
       ((st.mem.get? (pyLower s)).isSome →
          st2.mem = st.mem.delItem (pyLower s) ∧
          (st2.mem.isEmpty = false → st2.file = some st2.mem) ∧
          (st2.mem.isEmpty = true → st2.file = st.file)) ∧
       ((st.mem.get? (pyLower s)).isNone → st2 = st)) := by
  constructor
  · intro args st msg st2 h
    cases hn : args.getItem "name" with
    | error e => simp [Notion.notion_db_add, hn] at h
    | ok nv =>
      cases nv with
      | vStr s =>
        cases hd : args.getItem "database_id" with
        | error e => simp [Notion.notion_db_add, hn, hd, Notion.lowerValue] at h
        | ok dbid =>
          simp [Notion.notion_db_add, hn, hd, Notion.lowerValue] at h
          rw [← h.2, save_databases_file_of_nonempty _ (by simp [setItem_isEmpty]),
            save_databases_mem]
      | vInt n => simp [Notion.notion_db_add, hn, Notion.lowerValue] at h
      | vBool b => simp [Notion.notion_db_add, hn, Notion.lowerValue] at h
      | vNone => simp [Notion.notion_db_add, hn, Notion.lowerValue] at h
  · intro args st s msg st2 hn h
    simp [Notion.notion_db_remove, hn, Notion.lowerValue] at h
    constructor
    · intro hsome
      rw [Option.isSome_iff_exists] at hsome
      obtain ⟨v, hv⟩ := hsome
      rw [hv] at h
      simp at h
      have hmem : st2.mem = st.mem.delItem (pyLower s) := by
        rw [← h.2, save_databases_mem]
      refine ⟨hmem, ?_, ?_⟩
      · intro hne
        rw [← h.2] at hne ⊢
        rw [save_databases_mem] at hne
        rw [save_databases_file_of_nonempty _ hne, save_databases_mem]
      · intro hemp
        rw [← h.2] at hemp ⊢
        rw [save_databases_mem] at hemp
        unfold Notion.save_databases
        simp [hemp]
    · intro hnone
      rw [Option.isNone_iff_eq_none] at hnone
      rw [hnone] at h
      simp at h
      exact h.2.symm

/-- Alias map with a single saved alias, for exercising resolution. -/
def nAliases : Dict := [("tasks", .vStr "0123456789abcdef0123456789abcdef")]

/-- State produced by adding the alias `tasks` to an empty store. -/
def nStAdd : Notion.St := ⟨[("tasks", .vStr "id1")], some [("tasks", .vStr "id1")]⟩

/-- Store holding two aliases in memory and on disk. -/
def nStTwo : Notion.St :=
  ⟨[("a", .vStr "1"), ("b", .vStr "2")], some [("a", .vStr "1"), ("b", .vStr "2")]⟩

/-- Witness for C10: a case-insensitive alias hit (which shadows the
32-hex-character fallback), the dash-tolerant ID fallback, and
resolvability of a just-added alias under different casing. -/
theorem c10_witness :
    Notion.resolve_database_id nAliases "TASKS" =
      some (.vStr "0123456789abcdef0123456789abcdef") ∧
    Notion.resolve_database_id [] "0123456789AB-cdef0123456789abcdef" =
      some (.vStr "0123456789AB-cdef0123456789abcdef") ∧
    Notion.resolve_database_id nStAdd.mem "tAsks" = some (.vStr "id1") := by
  refine ⟨?_, ?_, ?_⟩
  · exact c10_resolve_database_id_order.1 nAliases "TASKS"
      (.vStr "0123456789abcdef0123456789abcdef") (by decide)
  · exact (c10_resolve_database_id_order.2.1 [] "0123456789AB-cdef0123456789abcdef"
      (by decide)).trans (by decide)
  · exact c10_resolve_database_id_order.2.2
      [("name", .vStr "Tasks"), ("database_id", .vStr "id1")] ⟨[], none⟩
      "Tasks" (.vStr "id1") ("Added alias \x27tasks\x27 -> id1") nStAdd
      (by decide) (by decide) (by decide) "tAsks" (by decide)

/-- Witness for C8 (amended): an add rewrites the file to the in-memory
map, and a remove that leaves an alias behind does too. -/
theorem c8_witness :
    nStAdd.file = some nStAdd.mem ∧
    Notion.notion_db_remove [("name", .vStr "A")] nStTwo =
      .ok ("Removed alias \x27a\x27", ⟨[("b", .vStr "2")], some [("b", .vStr "2")]⟩) ∧
    (⟨[("b", .vStr "2")], some [("b", .vStr "2")]⟩ : Notion.St).file =
      some (⟨[("b", .vStr "2")], some [("b", .vStr "2")]⟩ : Notion.St).mem := by
  refine ⟨?_, by decide, ?_⟩
  · exact c8_alias_file_rewrite.1
      [("name", .vStr "Tasks"), ("database_id", .vStr "id1")] ⟨[], none⟩
      ("Added alias \x27tasks\x27 -> id1") nStAdd (by decide)
  · exact ((c8_alias_file_rewrite.2 [("name", .vStr "A")] nStTwo "A"
      ("Removed alias \x27a\x27") ⟨[("b", .vStr "2")], some [("b", .vStr "2")]⟩
      (by decide) (by decide)).1 (by decide)).2.1 (by decide)

/-- Claim C6 — `ZohoMail._request` performs at most one refresh and at most
two API requests; a 401 first response triggers exactly one refresh attempt
followed by exactly one retry (when the refresh itself fails, the failure
is terminal with no retry); a non-401 first response is never refreshed or
retried. -/
theorem c6_single_refresh_then_terminal (env : Zoho.ReqEnv) :
    (Zoho.mail_request env).refreshAttempts ≤ 1 ∧
    (Zoho.mail_request env).apiRequests ≤ 2 ∧
    (∀ r1, env.resp1 = .ok r1 → r1.status = 401 →
      (Zoho.mail_request env).refreshAttempts = 1 ∧
      (env.refresh = .ok () → (Zoho.mail_request env).apiRequests = 2) ∧
      (∀ e, env.refresh = .error e → (Zoho.mail_request env).apiRequests = 1 ∧
        (Zoho.mail_request env).result = .error e)) ∧
    (∀ r1, env.resp1 = .ok r1 → ¬ r1.status = 401 →
      (Zoho.mail_request env).refreshAttempts = 0 ∧
      (Zoho.mail_request env).apiRequests = 1) := by
  refine ⟨?_, ?_, ?_, ?_⟩
  · unfold Zoho.mail_request
    cases env.resp1 with
    | error e => simp
    | ok r1 =>
      dsimp only
      split
      · cases env.refresh with
        | error e => simp
        | ok u =>
          cases env.resp2 with
          | error e => simp
          | ok r2 => dsimp only; split <;> simp
      · split <;> simp
  · unfold Zoho.mail_request
    cases env.resp1 with
    | error e => simp
    | ok r1 =>
      dsimp only
      split
      · cases env.refresh with
        | error e => simp
        | ok u =>
          cases env.resp2 with
          | error e => simp
          | ok r2 => dsimp only; split <;> simp
      · split <;> simp
  · intro r1 h1 h401
    refine ⟨?_, ?_, ?_⟩
    · simp only [Zoho.mail_request, h1, h401, if_true]
      cases env.refresh with
      | error e => simp
      | ok u =>
        cases env.resp2 with
        | error e => simp
        | ok r2 => dsimp only; split <;> simp
    · intro hr
      simp only [Zoho.mail_request, h1, h401, if_true, hr]
      cases env.resp2 with
      | error e => simp
      | ok r2 => dsimp only; split <;> simp
    · intro e hr
      simp [Zoho.mail_request, h1, h401, hr]
  · intro r1 h1 h401
    constructor <;>
    · simp only [Zoho.mail_request, h1, h401, if_false]
      split <;> simp

/-- Witness for C6: a 401 first response with a succeeding refresh makes
exactly one refresh and two requests; a 200 first response makes none and
one. -/
theorem c6_witness :
    (Zoho.mail_request ⟨.ok ⟨401, "expired"⟩, .ok (), .ok ⟨200, "ok"⟩⟩).refreshAttempts = 1 ∧
    (Zoho.mail_request ⟨.ok ⟨401, "expired"⟩, .ok (), .ok ⟨200, "ok"⟩⟩).apiRequests = 2 ∧
    (Zoho.mail_request ⟨.ok ⟨200, "ok"⟩, .ok (), .ok ⟨200, "ok"⟩⟩).refreshAttempts = 0 ∧
    (Zoho.mail_request ⟨.ok ⟨200, "ok"⟩, .ok (), .ok ⟨200, "ok"⟩⟩).apiRequests = 1 := by
  have h1 := (c6_single_refresh_then_terminal ⟨.ok ⟨401, "expired"⟩, .ok (), .ok ⟨200, "ok"⟩⟩).2.2.1
    ⟨401, "expired"⟩ (by decide) (by decide)
  have h2 := (c6_single_refresh_then_terminal ⟨.ok ⟨200, "ok"⟩, .ok (), .ok ⟨200, "ok"⟩⟩).2.2.2
    ⟨200, "ok"⟩ (by decide) (by decide)
  exact ⟨h1.1, h1.2.1 (by decide), h2.1, h2.2⟩

theorem main_loop_cons (env : Zoho.Env) (l : Zoho.InLine) (rest : List Zoho.InLine) :
    Zoho.main_loop env (l :: rest) =
      Zoho.serve_line env l ++ Zoho.main_loop env rest := by
  cases l <;> rfl

/-- Claim C7 — the dispatch loop serves every line independently: whatever
one line produced (including nothing, for malformed JSON, or an error
response), all subsequent lines are still served, and the loop ends only at
the end of the input list; a request whose handler raises is answered with
the failure envelope carrying the error text. -/
theorem c7_loop_survives_failures :
    (∀ (env : Zoho.Env) (pre : List Zoho.InLine) (l : Zoho.InLine)
       (post : List Zoho.InLine),
       Zoho.main_loop env (pre ++ l :: post) =
         Zoho.main_loop env pre ++ Zoho.serve_line env l ++ Zoho.main_loop env post) ∧
    (∀ (env : Zoho.Env) (rid : Option Int) (name : String) (args : Dict)
       (e : PyErr) (t : List Zoho.MailCall),
       Zoho.tools_call_body env name args = (.error e, t) →
       Zoho.serve_line env (.request rid "tools/call" ⟨name, args⟩) =
         [⟨rid, .result (.callRes (errEnvelope ("Error: " ++ e.msg)))⟩] ∧
       MsgContains ("Error: " ++ e.msg) e.msg) := by
  constructor
  · intro env pre l post
    induction pre with
    | nil => rw [List.nil_append, main_loop_cons, Zoho.main_loop, List.nil_append]
    | cons x xs ih =>
      rw [List.cons_append, main_loop_cons, main_loop_cons, ih]
      simp [List.append_assoc]
  · intro env rid name args e t h
    exact ⟨by simp [Zoho.serve_line, Zoho.handle_request, Zoho.tools_call, h],
      msg_contains_tail "Error: " e.msg⟩

/-- Witness for C7: a handler throwing a simulated network error yields the
failure envelope, and the loop output decomposes around it. -/
theorem c7_witness :
    Zoho.serve_line zEnvBoomFix
        (.request (some 1) "tools/call" ⟨"zoho_send_email", zArgsFull⟩) =
      [⟨some 1, .result (.callRes (errEnvelope "Error: boom"))⟩] ∧
    Zoho.main_loop zEnvBoomFix
        ([.malformed "x"] ++ .request (some 1) "tools/call" ⟨"zoho_send_email", zArgsFull⟩ ::
          [.request (some 2) "tools/list" ⟨"", []⟩]) =
      Zoho.main_loop zEnvBoomFix [.malformed "x"] ++
        Zoho.serve_line zEnvBoomFix
          (.request (some 1) "tools/call" ⟨"zoho_send_email", zArgsFull⟩) ++
        Zoho.main_loop zEnvBoomFix [.request (some 2) "tools/list" ⟨"", []⟩] := by
  constructor
  · exact ((c7_loop_survives_failures.2 zEnvBoomFix (some 1) "zoho_send_email" zArgsFull
      ⟨"boom"⟩ [Zoho.MailCall.send (.vStr "a@b.c") (.vStr "Hi") (.vStr "Text") .vNone .vNone]
      (by decide)).1).trans (by decide)
  · exact c7_loop_survives_failures.1 zEnvBoomFix [.malformed "x"]
      (.request (some 1) "tools/call" ⟨"zoho_send_email", zArgsFull⟩)
      [.request (some 2) "tools/list" ⟨"", []⟩]

theorem msg_contains_keyError (a k : String) : MsgContains (a ++ (PyErr.keyError k).msg) k := by
  have h := chSub_mid (a.data ++ "\x27".data) k.data "\x27".data
  simpa [MsgContains, PyErr.keyError, String.data_append, List.append_assoc] using h

/-- Google state after `gmail_send` constructed the auth and gmail handles
from `gSt0` (and the vendor call then failed). -/
def gStSent : GW.St :=
  ⟨some "personal", some ⟨some "personal", 0⟩, some ⟨⟨some "personal", 0⟩, 1⟩,
   none, none, none, none, 2⟩

/-- Claim C1 — any exception raised inside a dispatched handler branch is
caught at the dispatch boundary of both servers and converted to a failure
result whose message contains `str(exception)` (zoho: the flagged
`Error: ...` envelope; google: the `Error: ...` text content); a run that
does not raise is passed through unchanged, so every invocation returns a
`ToolResult` and no exception propagates. -/
theorem c1_exceptions_caught (zenv : Zoho.Env) (name : String) (args : Dict)
    (genv : GW.Env) (gname : String) (gargs : Dict) (st : GW.St) :
    (∀ e t, Zoho.tools_call_body zenv name args = (.error e, t) →
       Zoho.tools_call zenv name args = (errEnvelope ("Error: " ++ e.msg), t) ∧
       MsgContains ("Error: " ++ e.msg) e.msg) ∧
    (∀ r t, Zoho.tools_call_body zenv name args = (.ok r, t) →
       Zoho.tools_call zenv name args = (r, t)) ∧
    (∀ e st1, GW.call_tool_body genv gname gargs st = (.error e, st1) →
       GW.call_tool genv gname gargs st = ([mkText ("Error: " ++ e.msg)], st1) ∧
       MsgContains ("Error: " ++ e.msg) e.msg) ∧
    (∀ cs st1, GW.call_tool_body genv gname gargs st = (.ok cs, st1) →
       GW.call_tool genv gname gargs st = (cs, st1)) := by
  refine ⟨?_, ?_, ?_, ?_⟩
  · intro e t h
    exact ⟨by simp [Zoho.tools_call, h], msg_contains_tail "Error: " e.msg⟩
  · intro r t h
    simp [Zoho.tools_call, h]
  · intro e st1 h
    exact ⟨by simp [GW.call_tool, h], msg_contains_tail "Error: " e.msg⟩
  · intro cs st1 h
    simp [GW.call_tool, h]

/-- Witness for C1: a simulated vendor failure in each server is converted
to the textual failure result. -/
theorem c1_witness :
    Zoho.tools_call zEnvBoomFix "zoho_send_email" zArgsFull =
      (errEnvelope "Error: boom",
       [Zoho.MailCall.send (.vStr "a@b.c") (.vStr "Hi") (.vStr "Text") .vNone .vNone]) ∧
    GW.call_tool gEnvBoomFix "gmail_send" zArgsFull gSt0 =
      ([mkText "Error: network unreachable"], gStSent) := by
  have hz := (c1_exceptions_caught zEnvBoomFix "zoho_send_email" zArgsFull
    gEnvBoomFix "gmail_send" zArgsFull gSt0).1 ⟨"boom"⟩
    [Zoho.MailCall.send (.vStr "a@b.c") (.vStr "Hi") (.vStr "Text") .vNone .vNone]
    (by decide)
  have hg := (c1_exceptions_caught zEnvBoomFix "zoho_send_email" zArgsFull
    gEnvBoomFix "gmail_send" zArgsFull gSt0).2.2.1 ⟨"network unreachable"⟩ gStSent
    (by decide)
  exact ⟨hz.1.trans (by decide), hg.1.trans (by decide)⟩

/-- Counterexample to claim C2 as stated: the zoho dispatcher performs no
schema validation at all — `zoho_send_email` invoked with an integer `to`
(the schema declares `string`) passes the value straight to the handler,
which is therefore invoked with schema-invalid input. -/
theorem c2_counterexample :
    (Zoho.tools_call zEnvOkFix "zoho_send_email" zArgsBadType).snd =
      [Zoho.MailCall.send (.vInt 5) (.vStr "Hi") (.vStr "Text") .vNone .vNone] ∧
    findTool Zoho.tool_descriptors "zoho_send_email" =
      some ⟨"zoho_send_email", "Send an email via Zoho Mail",
        [("to", "string"), ("subject", "string"), ("body", "string"),
         ("cc", "string"), ("bcc", "string")], ["to", "subject", "body"]⟩ ∧
    jsonTypeName (.vInt 5) ≠ "string" := by
  refine ⟨by decide, by decide, by decide⟩

/-- Claim C2 (amended) — the dispatcher performs no schema validation.  A
request missing a required argument still yields a failure without the
handler being invoked, because the `arguments[...]` lookup itself raises
`KeyError` inside the guarded region before the handler call: the failure
envelope names the first required key (in the access order of the code)
that is absent.  Type mismatches are not detected (see the
counterexample). -/
theorem c2_missing_required_fails_without_handler (env : Zoho.Env) (args : Dict)
    (d : ToolDescriptor) (henv : env.authInit = .ok true)
    (hd : d ∈ Zoho.tool_descriptors)
    (hmiss : ∃ k ∈ d.required, args.get? k = none) :
    ∃ k, k ∈ d.required ∧ args.get? k = none ∧
      Zoho.tools_call env d.name args =
        (errEnvelope ("Error: " ++ (PyErr.keyError k).msg), []) ∧
      MsgContains ("Error: " ++ (PyErr.keyError k).msg) k := by
  simp only [Zoho.tool_descriptors, List.mem_cons, List.not_mem_nil, or_false] at hd
  rcases hd with rfl | rfl | rfl | rfl | rfl | rfl
  · by_cases h1 : args.get? "to" = none
    · exact ⟨"to", by simp, h1,
        by simp [Zoho.tools_call, Zoho.tools_call_body, henv, Dict.getItem, h1],
        msg_contains_keyError "Error: " "to"⟩
    · obtain ⟨v1, hv1⟩ := Option.ne_none_iff_exists'.mp h1
      by_cases h2 : args.get? "subject" = none
      · exact ⟨"subject", by simp, h2,
          by simp [Zoho.tools_call, Zoho.tools_call_body, henv, Dict.getItem, hv1, h2],
          msg_contains_keyError "Error: " "subject"⟩
      · obtain ⟨v2, hv2⟩ := Option.ne_none_iff_exists'.mp h2
        have h3 : args.get? "body" = none := by
          rcases hmiss with ⟨k, hk, hn⟩
          simp at hk
          rcases hk with rfl | rfl | rfl
          · exact absurd hn h1
          · exact absurd hn h2
          · exact hn
        exact ⟨"body", by simp, h3,
          by simp [Zoho.tools_call, Zoho.tools_call_body, henv, Dict.getItem, hv1, hv2, h3],
          msg_contains_keyError "Error: " "body"⟩
  · by_cases h1 : args.get? "to" = none
    · exact ⟨"to", by simp, h1,
        by simp [Zoho.tools_call, Zoho.tools_call_body, henv, Dict.getItem, h1],
        msg_contains_keyError "Error: " "to"⟩
    · obtain ⟨v1, hv1⟩ := Option.ne_none_iff_exists'.mp h1
      by_cases h2 : args.get? "subject" = none
      · exact ⟨"subject", by simp, h2,
          by simp [Zoho.tools_call, Zoho.tools_call_body, henv, Dict.getItem, hv1, h2],
          msg_contains_keyError "Error: " "subject"⟩
      · obtain ⟨v2, hv2⟩ := Option.ne_none_iff_exists'.mp h2
        have h3 : args.get? "body" = none := by
          rcases hmiss with ⟨k, hk, hn⟩
          simp at hk
          rcases hk with rfl | rfl | rfl
          · exact absurd hn h1
          · exact absurd hn h2
          · exact hn
        exact ⟨"body", by simp, h3,
          by simp [Zoho.tools_call, Zoho.tools_call_body, henv, Dict.getItem, hv1, hv2, h3],
          msg_contains_keyError "Error: " "body"⟩
  · obtain ⟨k, hk, hn⟩ := hmiss
    simp at hk
    subst hk
    exact ⟨"query", by simp, hn,
      by simp [Zoho.tools_call, Zoho.tools_call_body, henv, Dict.getItem, hn],
      msg_contains_keyError "Error: " "query"⟩
  · obtain ⟨k, hk, -⟩ := hmiss
    simp at hk
  · obtain ⟨k, hk, hn⟩ := hmiss
    simp at hk
    subst hk
    exact ⟨"message_id", by simp, hn,
      by simp [Zoho.tools_call, Zoho.tools_call_body, henv, Dict.getItem, hn],
      msg_contains_keyError "Error: " "message_id"⟩
  · obtain ⟨k, hk, -⟩ := hmiss
    simp at hk

/-- Witness for C2 (amended): invoking send-email without `to` fails with
the `KeyError` text and no handler invocation. -/
theorem c2_witness :
    Zoho.tools_call zEnvOkFix "zoho_send_email"
        [("subject", .vStr "Hi"), ("body", .vStr "B")] =
      (errEnvelope "Error: \x27to\x27", []) := by
  obtain ⟨k, hk, hn, heq, -⟩ := c2_missing_required_fails_without_handler zEnvOkFix
    [("subject", .vStr "Hi"), ("body", .vStr "B")]
    ⟨"zoho_send_email", "Send an email via Zoho Mail",
      [("to", "string"), ("subject", "string"), ("body", "string"),
       ("cc", "string"), ("bcc", "string")], ["to", "subject", "body"]⟩
    (by decide) (by decide) ⟨"to", by decide, by decide⟩
  simp at hk
  rcases hk with rfl | rfl | rfl
  · exact heq.trans (by decide)
  · exact absurd hn (by decide)
  · exact absurd hn (by decide)

/-- Counterexample to claim C3 as stated: in the zoho server the
authentication precheck runs before the tool-name dispatch, so an unknown
tool name requested while unauthenticated is answered with the
not-authenticated failure, whose message does not contain the unknown tool
name. -/
theorem c3_counterexample :
    Zoho.tools_call zEnvUnauthFix "nonexistent_tool" [] = (Zoho.notAuthEnvelope, []) ∧
    Zoho.notAuthEnvelope.isError = some true ∧
    (∀ b ∈ Zoho.notAuthEnvelope.content, ¬ MsgContains b.text "nonexistent_tool") := by
  refine ⟨by decide, by decide, by decide⟩

/-- Claim C3 (amended) — an unregistered tool name is reported, never
raised: the zoho dispatcher answers `Failure("Unknown tool: <name>")`
provided the authentication precheck passes (otherwise the
not-authenticated failure takes precedence, see the counterexample); the
google dispatcher answers the content `Unknown tool: <name>` leaving its
state untouched.  In both, the message contains the literal name. -/
theorem c3_unknown_tool_reported :
    (∀ (env : Zoho.Env) (args : Dict) (name : String),
       env.authInit = .ok true → ¬ name ∈ Zoho.tool_names →
       Zoho.tools_call env name args = (errEnvelope ("Unknown tool: " ++ name), []) ∧
       MsgContains ("Unknown tool: " ++ name) name) ∧
    (∀ (genv : GW.Env) (args : Dict) (name : String) (st : GW.St),
       ¬ name ∈ GW.tool_names →
       GW.call_tool genv name args st = ([mkText ("Unknown tool: " ++ name)], st) ∧
       MsgContains ("Unknown tool: " ++ name) name) := by
  constructor
  · intro env args name henv hmem
    simp only [Zoho.tool_names, List.mem_cons, List.not_mem_nil, or_false] at hmem
    push_neg at hmem
    obtain ⟨n1, n2, n3, n4, n5, n6⟩ := hmem
    refine ⟨?_, msg_contains_tail "Unknown tool: " name⟩
    simp [Zoho.tools_call, Zoho.tools_call_body, henv, n1, n2, n3, n4, n5, n6]
  · intro genv args name st hmem
    simp only [GW.tool_names, List.mem_cons, List.not_mem_nil, or_false] at hmem
    push_neg at hmem
    obtain ⟨m1, m2, m3, m4, m5, m6, m7, m8, m9, m10, m11, m12, m13, m14, m15,
      m16, m17, m18, m19, m20, m21⟩ := hmem
    refine ⟨?_, msg_contains_tail "Unknown tool: " name⟩
    simp [GW.call_tool, GW.call_tool_body, m1, m2, m3, m4, m5, m6, m7, m8, m9,
      m10, m11, m12, m13, m14, m15, m16, m17, m18, m19, m20, m21]

/-- Witness for C3 (amended): the unknown name appears literally in both
servers when the precheck passes. -/
theorem c3_witness :
    Zoho.tools_call zEnvOkFix "nonexistent_tool" [] =
      (errEnvelope "Unknown tool: nonexistent_tool", []) ∧
    GW.call_tool gEnvFix "nonexistent_tool" [] gSt0 =
      ([mkText "Unknown tool: nonexistent_tool"], gSt0) := by
  have hz := (c3_unknown_tool_reported.1 zEnvOkFix [] "nonexistent_tool"
    (by decide) (by decide)).1
  have hg := (c3_unknown_tool_reported.2 gEnvFix [] "nonexistent_tool" gSt0
    (by decide)).1
  exact ⟨hz.trans (by decide), hg.trans (by decide)⟩

theorem zoho_body_ok_shape (env : Zoho.Env) (name : String) (args : Dict)
    (r : Envelope) (t : List Zoho.MailCall)
    (h : Zoho.tools_call_body env name args = (.ok r, t)) :
    (∀ b ∈ r.content, b.ctype = "text") ∧
    (r.isError = none ∨ r.isError = some true) := by
  unfold Zoho.tools_call_body at h
  repeat' split at h
  all_goals simp_all [okEnvelope, errEnvelope, Zoho.notAuthEnvelope, mkText]
  all_goals obtain ⟨h1, -⟩ := h
  all_goals subst h1
  all_goals simp [mkText]

/-- Claim C5 (amended) — in the zoho server every `tools/call` response has
exactly the claimed envelope shape: a list of `{"type": "text", ...}`
blocks, with the error key either absent (success) or `true` (failure).
In the google server `call_tool` returns a bare content list and catches
every exception itself, so the transport envelope never carries the error
flag — google failures are not distinguished by it (see the
counterexample). -/
theorem c5_envelope_shape :
    (∀ (env : Zoho.Env) (name : String) (args : Dict),
       (∀ b ∈ (Zoho.tools_call env name args).fst.content, b.ctype = "text") ∧
       ((Zoho.tools_call env name args).fst.isError = none ∨
        (Zoho.tools_call env name args).fst.isError = some true)) ∧
    (∀ (genv : GW.Env) (name : String) (args : Dict) (st : GW.St),
       (GW.wire_response genv name args st).isError = false) := by
  constructor
  · intro env name args
    cases h : Zoho.tools_call_body env name args with
    | mk res t =>
      cases res with
      | ok r =>
        have hs := zoho_body_ok_shape env name args r t h
        simpa [Zoho.tools_call, h] using hs
      | error e =>
        simp [Zoho.tools_call, h, errEnvelope, mkText]
  · intro genv name args st
    simp [GW.wire_response, GW.mcpWrap]

/-- Counterexample to claim C5 as stated: a google invocation whose handler
branch raises (a failure-producing invocation) is answered through the wire
with the error flag unset — the failure text rides in a success-shaped
envelope. -/
theorem c5_counterexample :
    GW.call_tool_body gEnvBoomFix "gmail_send" zArgsFull gSt0 =
      (.error ⟨"network unreachable"⟩, gStSent) ∧
    GW.wire_response gEnvBoomFix "gmail_send" zArgsFull gSt0 =
      ⟨[mkText "Error: network unreachable"], false⟩ := by
  refine ⟨by decide, by decide⟩

/-- Witness for C5 (amended): a concrete zoho success response is all-text
with the error key absent, and a concrete google wire response carries no
error flag. -/
theorem c5_witness :
    ((Zoho.tools_call zEnvOkFix "zoho_list_folders" []).fst.isError = none ∨
     (Zoho.tools_call zEnvOkFix "zoho_list_folders" []).fst.isError = some true) ∧
    (mkText "Mail Folders:\n\n").ctype = "text" ∧
    (GW.wire_response gEnvFix "gmail_send" zArgsFull gSt0).isError = false := by
  refine ⟨(c5_envelope_shape.1 zEnvOkFix "zoho_list_folders" []).2, ?_,
    c5_envelope_shape.2 gEnvFix "gmail_send" zArgsFull gSt0⟩
  exact (c5_envelope_shape.1 zEnvOkFix "zoho_list_folders" []).1
    (mkText "Mail Folders:\n\n") (by decide)

/-- Claim C4 — a successful `account_switch` invalidates (sets to `None`)
every cached vendor client handle and the auth handle, and repoints the
active account; any subsequent handle fetch then constructs a fresh handle
(its construction counter is not among those cached before the switch)
against the newly active account. -/
theorem c4_switch_invalidates_handles (env : GW.Env) (st : GW.St) (a : String)
    (st1 : GW.St) (hWF : GW.WF st)
    (hsw : GW.switch_account env st a = (true, st1)) :
    (st1.auth = none ∧ st1.gmail = none ∧ st1.sheets = none ∧ st1.docs = none ∧
     st1.drive = none ∧ st1.calendar = none ∧ st1.currentAccount = some a ∧
     st1.counter = st.counter) ∧
    (∀ h st2, GW.get_gmail env st1 = (.ok h, st2) →
       h.auth.account = some a ∧ ¬ h.gen ∈ GW.cachedGens st) ∧
    (∀ h st2, GW.get_sheets env st1 = (.ok h, st2) →
       h.auth.account = some a ∧ ¬ h.gen ∈ GW.cachedGens st) ∧
    (∀ h st2, GW.get_docs env st1 = (.ok h, st2) →
       h.auth.account = some a ∧ ¬ h.gen ∈ GW.cachedGens st) ∧
    (∀ h st2, GW.get_drive env st1 = (.ok h, st2) →
       h.auth.account = some a ∧ ¬ h.gen ∈ GW.cachedGens st) ∧
    (∀ h st2, GW.get_calendar env st1 = (.ok h, st2) →
       h.auth.account = some a ∧ ¬ h.gen ∈ GW.cachedGens st) := by
  unfold GW.switch_account at hsw
  split at hsw
  case isFalse => simp at hsw
  case isTrue hcond =>
  simp only [Prod.mk.injEq, true_and] at hsw
  subst hsw
  refine ⟨by simp, ?_, ?_, ?_, ?_, ?_⟩
  all_goals intro h st2 hg
  all_goals simp only [GW.get_gmail, GW.get_sheets, GW.get_docs, GW.get_drive,
    GW.get_calendar, GW.get_auth, GW.get_current_account] at hg
  all_goals split at hg
  all_goals simp only [Prod.mk.injEq, Except.ok.injEq, reduceCtorEq, false_and] at hg
  all_goals obtain ⟨h1, -⟩ := hg
  all_goals subst h1
  all_goals refine ⟨rfl, ?_⟩
  all_goals intro hmem
  all_goals have hlt := hWF _ hmem
  all_goals simp at hlt

/-- State after switching `gStWarm` to the account `work`. -/
def gStW1 : GW.St := ⟨some "work", none, none, none, none, none, none, 2⟩

/-- State after fetching a gmail handle on `gStW1`. -/
def gStW2 : GW.St :=
  ⟨some "work", some ⟨some "work", 2⟩, some ⟨⟨some "work", 2⟩, 3⟩,
   none, none, none, none, 4⟩

/-- Witness for C4: switching the warm state to `work` and refetching the
gmail handle yields a handle for `work` whose counter is fresh. -/
theorem c4_witness :
    GW.WF gStWarm ∧
    ((⟨⟨some "work", 2⟩, 3⟩ : GW.Handle).auth.account = some "work" ∧
     ¬ (⟨⟨some "work", 2⟩, 3⟩ : GW.Handle).gen ∈ GW.cachedGens gStWarm) := by
  refine ⟨by decide, ?_⟩
  exact (c4_switch_invalidates_handles gEnvFix gStWarm "work" gStW1
    (by decide) (by decide)).2.1 ⟨⟨some "work", 2⟩, 3⟩ gStW2 (by decide)

/-- Claim C9 — `account_switch` to an account whose directory or token file
does not exist reports the failure and returns the dispatcher state exactly
as it was: the active account pointer and every cached handle are
untouched. -/
theorem c9_failed_switch_leaves_state (env : GW.Env) (st : GW.St) (args : Dict)
    (a : String) (hacc : args.getItem "account" = .ok (.vStr a))
    (hbad : env.dirExists a = false ∨ env.hasToken a = false) :
    GW.call_tool env "account_switch" args st =
      ([mkText ("Account \x27" ++ a ++ "\x27 not found. Available: " ++
        String.intercalate ", " (GW.get_available_accounts env))], st) := by
  have hcond : (env.dirExists a && env.hasToken a) = false := by
    rcases hbad with h | h <;> simp [h]
  simp [GW.call_tool, GW.call_tool_body, GW.stepE, hacc, GW.asPathName,
    GW.switch_account, hcond]

/-- Witness for C9: switching to the unconfigured account `ghost` reports
failure and leaves the fresh state unchanged. -/
theorem c9_witness :
    GW.call_tool gEnvFix "account_switch" [("account", .vStr "ghost")] gSt0 =
      ([mkText "Account \x27ghost\x27 not found. Available: personal, work"], gSt0) := by
  exact (c9_failed_switch_leaves_state gEnvFix gSt0 [("account", .vStr "ghost")]
    "ghost" (by decide) (Or.inl (by decide))).trans (by decide)
